import Mathlib

/-!
Shallow embedding of the rockfon-reorder core pipeline
(src/core/models.py, src/core/calculator.py, src/core/parser.py).

Python floats are modelled as exact rationals (`ℚ`); `float("inf")` as an
explicit sentinel constructor of `StockMonths`; missing numeric values
(pandas NaN) as `Option ℚ`.  Python `int(x)` truncates toward zero, which
`pyInt` mirrors.  A pandas DataFrame of parsed rows is a `List RawRow`.
-/

/-- The `Urgency` enum of models.py: stock urgency levels ordered by severity. -/
inductive Urgency
  | CRITICAL
  | URGENT
  | WARNING
  | OK
deriving DecidableEq

/-- Numeric enum values: CRITICAL = 1, URGENT = 2, WARNING = 3, OK = 4
(lower value = more severe, used as the primary sort key). -/
def Urgency.value : Urgency → Nat
  | .CRITICAL => 1
  | .URGENT => 2
  | .WARNING => 3
  | .OK => 4

/-- The `emoji` property of models.py (colored circle glyphs). -/
def Urgency.emoji : Urgency → String
  | .CRITICAL => "🔴"
  | .URGENT => "🟠"
  | .WARNING => "🟡"
  | .OK => "🟢"

/-- The `label` property of models.py (text names for CSV export). -/
def Urgency.label : Urgency → String
  | .CRITICAL => "Critical"
  | .URGENT => "Urgent"
  | .WARNING => "Warning"
  | .OK => "OK"

/-- The value of the `months_of_stock` float: either a finite rational or the
`float("inf")` sentinel produced by `calculate_urgency` for zero-demand rows. -/
inductive StockMonths
  | fin (q : ℚ)
  | inf
deriving DecidableEq

/-- The `InventoryItem` dataclass of models.py. -/
structure InventoryItem where
  item_id : String
  sku : String
  category : String
  display_name : String
  qoh : ℤ
  monthly_average : ℚ
  months_of_stock : StockMonths
  urgency : Urgency
  suggested_order_qty : ℤ
deriving DecidableEq

/-- One normalized row of the parsed DataFrame (columns produced by
`parse_sheet`): `qoh` / `monthly_average` are `none` when
`pd.to_numeric(..., errors="coerce")` yielded NaN. -/
structure RawRow where
  item_id : String
  sku : String
  category : String
  display_name : String
  qoh : Option ℚ
  monthly_average : Option ℚ
deriving DecidableEq

/-- `TARGET_MONTHS = 3` from calculator.py. -/
def TARGET_MONTHS : ℤ := 3

/-- Python `int(x)` on a float: truncation toward zero. -/
def pyInt (q : ℚ) : ℤ := if 0 ≤ q then ⌊q⌋ else ⌈q⌉

/-- `calculate_urgency` from calculator.py: returns the urgency (or `none`
when there is no demand) together with the months-of-stock value. -/
def calculate_urgency (qoh monthly_avg : ℚ) : Option Urgency × StockMonths :=
  if monthly_avg ≤ 0 then (none, .inf)
  else if qoh ≤ 0 then (some .CRITICAL, .fin 0)
  else
    let months := qoh / monthly_avg
    if months < 1 then (some .URGENT, .fin months)
    else if months < 2 then (some .WARNING, .fin months)
    else (some .OK, .fin months)

/-- `calculate_suggested_order` from calculator.py:
`max(0, int(target_months * monthly_avg - qoh))`, or 0 when there is no
demand. -/
def calculate_suggested_order (qoh monthly_avg : ℚ) (target_months : ℤ) : ℤ :=
  if monthly_avg ≤ 0 then 0
  else max 0 (pyInt ((target_months : ℚ) * monthly_avg - qoh))

/-- Python `s.startswith("#")` for the one-character pattern used by
`is_valid_row`: true iff the first character of `s` is `'#'`. -/
def startsWithHash (s : String) : Bool :=
  match s.data with
  | [] => false
  | c :: _ => c = '#'

/-- `is_valid_row` from calculator.py: both numeric fields present,
non-negative, and no `"#"`-prefixed string field (broken Excel formulas). -/
def is_valid_row (row : RawRow) : Bool :=
  match row.qoh, row.monthly_average with
  | none, _ => false
  | _, none => false
  | some q, some m =>
    if q < 0 ∨ m < 0 then false
    else if startsWithHash row.sku ∨ startsWithHash row.display_name
        ∨ startsWithHash row.item_id then false
    else true

/-- The body of the `process_inventory` loop applied to one row: `none`
when the row is invalid or has no demand, otherwise the constructed
`InventoryItem` (with `qoh` truncated to an integer). -/
def processRow (row : RawRow) : Option InventoryItem :=
  if is_valid_row row then
    match row.qoh, row.monthly_average with
    | some qoh, some avg =>
      match calculate_urgency qoh avg with
      | (none, _) => none
      | (some urgency, months) =>
        some { item_id := row.item_id
               sku := row.sku
               category := row.category
               display_name := row.display_name
               qoh := pyInt qoh
               monthly_average := avg
               months_of_stock := months
               urgency := urgency
               suggested_order_qty := calculate_suggested_order qoh avg TARGET_MONTHS }
    | _, _ => none
  else none

/-- `process_inventory` from calculator.py: convert parsed rows to
`InventoryItem`s, dropping invalid and zero-demand rows. -/
def process_inventory (rows : List RawRow) : List InventoryItem :=
  rows.filterMap processRow

/-- The lexicographic order on the Python sort key
`(x.urgency.value, -x.monthly_average)` used by `sort_items`. -/
def sortKeyLE (a b : InventoryItem) : Bool :=
  decide (a.urgency.value < b.urgency.value) ||
  (decide (a.urgency.value = b.urgency.value) &&
    decide (b.monthly_average ≤ a.monthly_average))

/-- `sort_items` from calculator.py: Python's stable `sorted` with key
`(urgency.value, -monthly_average)`, modelled as a stable merge sort. -/
def sort_items (items : List InventoryItem) : List InventoryItem :=
  items.mergeSort sortKeyLE

/-- `filter_alerts` from calculator.py. -/
def filter_alerts (items : List InventoryItem) (include_ok : Bool) : List InventoryItem :=
  if include_ok then items
  else items.filter (fun i => i.urgency ≠ Urgency.OK)

/-- Iteration order of `for u in Urgency` (enum definition order). -/
def allUrgencies : List Urgency := [.CRITICAL, .URGENT, .WARNING, .OK]

/-- One `counts[item.urgency] += 1` step on the dict, modelled as an
association list keyed by `Urgency`. -/
def updateCount (counts : List (Urgency × Nat)) (u : Urgency) : List (Urgency × Nat) :=
  counts.map (fun p => if p.1 = u then (p.1, p.2 + 1) else p)

/-- `count_by_urgency` from calculator.py: start from
`{u: 0 for u in Urgency}` and increment per item. -/
def count_by_urgency (items : List InventoryItem) : List (Urgency × Nat) :=
  items.foldl (fun counts item => updateCount counts item.urgency)
    (allUrgencies.map (fun u => (u, 0)))

/-! ## Sheet extractor (src/core/parser.py)

A workbook is a list of named sheets.  A sheet is modelled as pandas sees
it after `read_excel`: a column count (the sheet's width) and the list of
its rows, each row a list of cells.  A cell is a number (anything
`pd.to_numeric` coerces successfully), a string, or blank (NaN). -/

/-- One spreadsheet cell as delivered by pandas: numeric, string, or blank. -/
inductive Cell
  | num (q : ℚ)
  | str (s : String)
  | blank
deriving DecidableEq

/-- `pd.to_numeric(..., errors="coerce")` on one cell: numbers pass through,
everything else becomes NaN (`none`). -/
def cellToNumeric : Cell → Option ℚ
  | .num q => some q
  | .str _ => none
  | .blank => none

/-- `.astype(str)` on one cell. -/
def cellToStr : Cell → String
  | .num q => toString q
  | .str s => s
  | .blank => "nan"

/-- A worksheet as pandas reads it: `ncols` columns and the full list of
rows (row 0 is the title row, row 1 the header, data starts at row 2). -/
structure Sheet where
  ncols : Nat
  rows : List (List Cell)

/-- Column-position configuration (0-indexed), from parser.py. -/
structure ColumnConfig where
  item : Nat
  sku : Nat
  type : Nat
  display : Nat
  qoh : Nat
  avg : Nat
deriving DecidableEq

/-- `STANDARD_COLUMNS` from parser.py. -/
def STANDARD_COLUMNS : ColumnConfig :=
  { item := 1, sku := 2, type := 3, display := 4, qoh := 5, avg := 6 }

/-- `WOOD_COLUMNS` from parser.py (lead time occupies column F, so avg = G
and qoh = H). -/
def WOOD_COLUMNS : ColumnConfig :=
  { item := 1, sku := 2, type := 3, display := 4, avg := 6, qoh := 7 }

/-- `INVENTORY_SHEETS` from parser.py. -/
def INVENTORY_SHEETS : List String :=
  ["Kits", "kit Components", "ColorChip", "Fleece", "Tiles", "Metal", "Wood",
   "Marketing"]

/-- `IGNORE_SHEETS` from parser.py. -/
def IGNORE_SHEETS : List String := ["FULL 4 LOOK UP KEEP", "Componet Averages"]

/-- `get_column_config` from parser.py. -/
def get_column_config (sheet_name : String) : ColumnConfig :=
  if sheet_name = "Wood" then WOOD_COLUMNS else STANDARD_COLUMNS

/-- Extract one `RawRow` from one data row by fixed column positions
(`df.iloc[:, k]`; short rows read as blank cells, i.e. NaN). -/
def extractRow (config : ColumnConfig) (sheet_name : String) (r : List Cell) : RawRow :=
  { item_id := cellToStr (r.getD config.item .blank)
    sku := cellToStr (r.getD config.sku .blank)
    category := sheet_name
    display_name := cellToStr (r.getD config.display .blank)
    qoh := cellToNumeric (r.getD config.qoh .blank)
    monthly_average := cellToNumeric (r.getD config.avg .blank) }

/-- `parse_sheet` from parser.py: skip the title and header rows, extract
the six fields by fixed column position; if the sheet lacks a configured
column (`IndexError` from `df.iloc`), the whole sheet yields nothing. -/
def parse_sheet (sheet_name : String) (sh : Sheet) : List RawRow :=
  let config := get_column_config sheet_name
  if config.item < sh.ncols ∧ config.sku < sh.ncols ∧ config.display < sh.ncols
      ∧ config.qoh < sh.ncols ∧ config.avg < sh.ncols then
    (sh.rows.drop 2).map (extractRow config sheet_name)
  else []

/-- The `for sheet_name in xl.sheet_names` loop of `parse_excel`: collects
per-sheet row lists (`all_data`) and the `{sheet_name: row_count}` stats for
sheets that yielded at least one row. -/
def parse_excel_loop : List (String × Sheet) → List (List RawRow) × List (String × Nat)
  | [] => ([], [])
  | (name, sh) :: rest =>
    if name ∈ IGNORE_SHEETS then parse_excel_loop rest
    else if name ∈ INVENTORY_SHEETS then
      let rows := parse_sheet name sh
      if rows.isEmpty then parse_excel_loop rest
      else
        let acc := parse_excel_loop rest
        (rows :: acc.1, (name, rows.length) :: acc.2)
    else parse_excel_loop rest

/-- `parse_excel` from parser.py: parse every known, non-ignored sheet and
return the concatenated rows plus the per-sheet stats; when nothing parsed,
return an empty DataFrame and the (empty) stats. -/
def parse_excel (wb : List (String × Sheet)) : List RawRow × List (String × Nat) :=
  let acc := parse_excel_loop wb
  if acc.1.isEmpty then ([], acc.2) else (acc.1.flatten, acc.2)

/-! ## CSV export (calculator.py `to_csv`)

`df.to_csv(index=False)` is modelled structurally: a list of header names
and one list of typed cells per item.  A `CsvCell` records the exact value
placed in the cell before text rendering: the urgency label string, the raw
`monthly_average` rational (full precision), the 2-decimal-rounded months
value, or the empty cell. -/

/-- A cell of the exported CSV, before text rendering. -/
inductive CsvCell
  | strC (v : String)
  | intC (v : ℤ)
  | ratC (v : ℚ)
  | emptyC
deriving DecidableEq

/-- Python `round` ties-to-even on a rational. -/
def roundHalfEven (q : ℚ) : ℤ :=
  if q - ⌊q⌋ < 1/2 then ⌊q⌋
  else if 1/2 < q - ⌊q⌋ then ⌊q⌋ + 1
  else if ⌊q⌋ % 2 = 0 then ⌊q⌋ else ⌊q⌋ + 1

/-- Python `round(x, 2)`. -/
def round2 (q : ℚ) : ℚ := (roundHalfEven (q * 100) : ℚ) / 100

/-- The header names of the exported DataFrame, in column order. -/
def csvHeader : List String :=
  ["Urgency", "Product", "SKU", "Category", "QOH", "Monthly Average",
   "Months of Stock", "Suggested Order Qty"]

/-- One exported record of `to_csv`: urgency label, product, sku, category,
qoh, monthly average (unrounded), months of stock rounded to 2 decimals or
blank when at least 100, suggested order qty. -/
def csvRecord (item : InventoryItem) : List CsvCell :=
  [CsvCell.strC item.urgency.label,
   CsvCell.strC item.display_name,
   CsvCell.strC item.sku,
   CsvCell.strC item.category,
   CsvCell.intC item.qoh,
   CsvCell.ratC item.monthly_average,
   (match item.months_of_stock with
    | .fin q => if q < 100 then CsvCell.ratC (round2 q) else CsvCell.emptyC
    | .inf => CsvCell.emptyC),
   CsvCell.intC item.suggested_order_qty]

/-- `to_csv` from calculator.py: `pd.DataFrame(...).to_csv(index=False)`,
i.e. the header row followed by one record per item, with no index column. -/
def to_csv (items : List InventoryItem) : List String × List (List CsvCell) :=
  (csvHeader, items.map csvRecord)

-- Sanity examples (concrete scenarios A, B, C of the spec).
example : calculate_urgency 0 5 = (some .CRITICAL, .fin 0) := by
  norm_num [calculate_urgency]
example : calculate_urgency 10 20 = (some .URGENT, .fin (1/2)) := by
  norm_num [calculate_urgency]
example : calculate_urgency 40 20 = (some .OK, .fin 2) := by
  norm_num [calculate_urgency]
example : calculate_suggested_order 0 5 TARGET_MONTHS = 15 := by
  norm_num [calculate_suggested_order, TARGET_MONTHS, pyInt]
example : calculate_suggested_order 10 20 TARGET_MONTHS = 50 := by
  norm_num [calculate_suggested_order, TARGET_MONTHS, pyInt]
example : calculate_suggested_order 40 20 TARGET_MONTHS = 20 := by
  norm_num [calculate_suggested_order, TARGET_MONTHS, pyInt]

/-! ## Helper lemmas -/

lemma max_zero_pyInt (x : ℚ) : max 0 (pyInt x) = max 0 ⌊x⌋ := by
  unfold pyInt
  split
  · rfl
  · next h =>
    have hx : x ≤ 0 := le_of_lt (not_le.mp h)
    have h1 : ⌈x⌉ ≤ 0 := Int.ceil_le.mpr (by exact_mod_cast hx)
    have h2 : ⌊x⌋ ≤ 0 := Int.floor_nonpos hx
    omega

lemma is_valid_row_iff (row : RawRow) :
    is_valid_row row = true ↔
      ∃ q a, row.qoh = some q ∧ row.monthly_average = some a ∧
        0 ≤ q ∧ 0 ≤ a ∧ startsWithHash row.sku = false ∧
        startsWithHash row.display_name = false ∧
        startsWithHash row.item_id = false := by
  rcases hq : row.qoh with _ | q <;> rcases ha : row.monthly_average with _ | a <;>
    simp only [is_valid_row, hq, ha] <;> simp
  tauto

lemma processRow_some (row : RawRow) (it : InventoryItem)
    (h : processRow row = some it) :
    ∃ qoh avg u m, row.qoh = some qoh ∧ row.monthly_average = some avg ∧
      is_valid_row row = true ∧ calculate_urgency qoh avg = (some u, m) ∧
      it = { item_id := row.item_id
             sku := row.sku
             category := row.category
             display_name := row.display_name
             qoh := pyInt qoh
             monthly_average := avg
             months_of_stock := m
             urgency := u
             suggested_order_qty := calculate_suggested_order qoh avg TARGET_MONTHS } := by
  by_cases hv : is_valid_row row
  · rcases hq : row.qoh with _ | q
    · simp [processRow, hv, hq] at h
    · rcases ha : row.monthly_average with _ | a
      · simp [processRow, hv, hq, ha] at h
      · rcases hu : calculate_urgency q a with ⟨ou, m⟩
        rcases ou with _ | u
        · simp [processRow, hv, hq, ha, hu] at h
        · simp only [processRow, hv, hq, ha, hu, if_true] at h
          rw [Option.some.injEq] at h
          exact ⟨q, a, u, m, rfl, rfl, hv, hu, h.symm⟩
  · simp [processRow, hv] at h

lemma calculate_urgency_some (q a : ℚ) (u : Urgency) (m : StockMonths)
    (h : calculate_urgency q a = (some u, m)) :
    0 < a ∧ ∃ x : ℚ, m = StockMonths.fin x ∧ 0 ≤ x := by
  simp only [calculate_urgency] at h
  by_cases h1 : a ≤ 0
  · simp [h1] at h
  · have hpos : 0 < a := not_le.mp h1
    rw [if_neg h1] at h
    by_cases h2 : q ≤ 0
    · rw [if_pos h2] at h
      simp only [Prod.mk.injEq] at h
      exact ⟨hpos, 0, h.2.symm, le_refl 0⟩
    · rw [if_neg h2] at h
      have hq : 0 < q := not_le.mp h2
      have hdiv : 0 ≤ q / a := le_of_lt (div_pos hq hpos)
      split_ifs at h <;> simp only [Prod.mk.injEq] at h <;>
        exact ⟨hpos, q / a, h.2.symm, hdiv⟩

/-! ## Claims -/

/-- C1: for every row with `monthly_average > 0`, `calculate_urgency`
returns CRITICAL with zero months of stock when `qoh ≤ 0`, and otherwise
`months_of_stock = qoh / monthly_average` with URGENT below 1 month,
WARNING from 1 (inclusive) to 2 (exclusive), and OK from 2 on — the tier
boundaries are strict. -/
theorem calculate_urgency_tiers (qoh monthly_avg : ℚ) (hpos : 0 < monthly_avg) :
    (qoh ≤ 0 →
      calculate_urgency qoh monthly_avg = (some Urgency.CRITICAL, StockMonths.fin 0)) ∧
    (0 < qoh →
      (calculate_urgency qoh monthly_avg).2 = StockMonths.fin (qoh / monthly_avg)) ∧
    (0 < qoh → qoh / monthly_avg < 1 →
      (calculate_urgency qoh monthly_avg).1 = some Urgency.URGENT) ∧
    (0 < qoh → 1 ≤ qoh / monthly_avg → qoh / monthly_avg < 2 →
      (calculate_urgency qoh monthly_avg).1 = some Urgency.WARNING) ∧
    (0 < qoh → 2 ≤ qoh / monthly_avg →
      (calculate_urgency qoh monthly_avg).1 = some Urgency.OK) := by
  have hna : ¬ monthly_avg ≤ 0 := not_le.mpr hpos
  refine ⟨?_, ?_, ?_, ?_, ?_⟩
  · intro hq
    simp [calculate_urgency, hna, hq]
  · intro hq
    have hq' : ¬ qoh ≤ 0 := not_le.mpr hq
    simp only [calculate_urgency, if_neg hna, if_neg hq']
    split_ifs <;> rfl
  · intro hq hm
    have hq' : ¬ qoh ≤ 0 := not_le.mpr hq
    simp [calculate_urgency, hna, hq', hm]
  · intro hq hm1 hm2
    have hq' : ¬ qoh ≤ 0 := not_le.mpr hq
    simp [calculate_urgency, hna, hq', not_lt.mpr hm1, hm2]
  · intro hq hm
    have hq' : ¬ qoh ≤ 0 := not_le.mpr hq
    have hm1 : ¬ qoh / monthly_avg < 1 := not_lt.mpr (by linarith)
    have hm2 : ¬ qoh / monthly_avg < 2 := not_lt.mpr hm
    simp [calculate_urgency, hna, hq', hm1, hm2]

/-- Witness for `calculate_urgency_tiers` at qoh = 10, monthly_avg = 20
(scenario B: half a month of stock is URGENT). -/
theorem calculate_urgency_tiers_witness :
    (0:ℚ) < 20 ∧ (0:ℚ) < 10 ∧ (10:ℚ) / 20 < 1 ∧
      (calculate_urgency 10 20).1 = some Urgency.URGENT := by
  refine ⟨by norm_num, by norm_num, by norm_num, ?_⟩
  exact (calculate_urgency_tiers 10 20 (by norm_num)).2.2.1 (by norm_num) (by norm_num)

/-- C2: `calculate_suggested_order` equals
`max 0 ⌊3 * monthly_average - qoh⌋` when `monthly_average > 0`, equals 0
when `monthly_average ≤ 0`, and is never negative. -/
theorem calculate_suggested_order_spec (qoh monthly_avg : ℚ) :
    (0 < monthly_avg →
      calculate_suggested_order qoh monthly_avg TARGET_MONTHS =
        max 0 ⌊3 * monthly_avg - qoh⌋) ∧
    (monthly_avg ≤ 0 →
      calculate_suggested_order qoh monthly_avg TARGET_MONTHS = 0) ∧
    0 ≤ calculate_suggested_order qoh monthly_avg TARGET_MONTHS := by
  refine ⟨?_, ?_, ?_⟩
  · intro h
    have hna : ¬ monthly_avg ≤ 0 := not_le.mpr h
    simp only [calculate_suggested_order, if_neg hna]
    rw [max_zero_pyInt]
    norm_num [TARGET_MONTHS]
  · intro h
    simp [calculate_suggested_order, h]
  · unfold calculate_suggested_order
    split
    · exact le_refl 0
    · exact le_max_left 0 _

/-- Witness for `calculate_suggested_order_spec` at qoh = 10,
monthly_avg = 20 (scenario B: order 50). -/
theorem calculate_suggested_order_spec_witness :
    (0:ℚ) < 20 ∧
      calculate_suggested_order 10 20 TARGET_MONTHS = max 0 ⌊(3:ℚ) * 20 - 10⌋ :=
  ⟨by norm_num, (calculate_suggested_order_spec 10 20).1 (by norm_num)⟩

/-- Concrete row of scenario D: qoh 5, monthly average 0 (no demand). -/
def rowD : RawRow :=
  { item_id := "D1", sku := "SKU-D", category := "Tiles",
    display_name := "Item D", qoh := some 5, monthly_average := some 0 }

/-- C3: a row whose monthly average is missing or ≤ 0 never produces an
`InventoryItem`, and consequently `monthly_average > 0` holds for every
item of the pipeline output. -/
theorem demand_filter_invariant :
    (∀ row : RawRow,
      (row.monthly_average = none ∨
        ∃ a, row.monthly_average = some a ∧ a ≤ 0) →
      processRow row = none) ∧
    (∀ (rows : List RawRow) (item : InventoryItem),
      item ∈ process_inventory rows → 0 < item.monthly_average) := by
  constructor
  · intro row h
    rcases hr : processRow row with _ | it
    · rfl
    · exfalso
      obtain ⟨q, a, u, m, hq, ha, _, hu, _⟩ := processRow_some row it hr
      have hpos : 0 < a := (calculate_urgency_some q a u m hu).1
      rcases h with hnone | ⟨a', ha', hle⟩
      · rw [ha] at hnone; exact Option.noConfusion hnone
      · rw [ha] at ha'
        have : a = a' := Option.some.inj ha'
        linarith [this ▸ hle]
  · intro rows item h
    rw [process_inventory, List.mem_filterMap] at h
    obtain ⟨row, _, hrow⟩ := h
    obtain ⟨q, a, u, m, hq, ha, hv, hu, rfl⟩ := processRow_some row item hrow
    exact (calculate_urgency_some q a u m hu).1

/-- Witness for `demand_filter_invariant`: scenario D (qoh 5, avg 0) is
dropped. -/
theorem demand_filter_invariant_witness : processRow rowD = none :=
  demand_filter_invariant.1 rowD (Or.inr ⟨0, rfl, le_refl 0⟩)

/-- Concrete row of scenario E: sku is the formula error `#REF!`. -/
def rowE : RawRow :=
  { item_id := "E1", sku := "#REF!", category := "Tiles",
    display_name := "Item E", qoh := some 5, monthly_average := some 2 }

/-- C6: an `InventoryItem` is produced only if qoh and monthly_average are
both present and non-negative and no string field starts with `"#"`; a row
failing the gate is dropped (mapped to `none`, never an exception). -/
theorem validity_gate_spec (row : RawRow) :
    (is_valid_row row = true ↔
      (∃ q, row.qoh = some q ∧ 0 ≤ q) ∧
      (∃ a, row.monthly_average = some a ∧ 0 ≤ a) ∧
      startsWithHash row.item_id = false ∧
      startsWithHash row.sku = false ∧
      startsWithHash row.display_name = false) ∧
    (is_valid_row row = false → processRow row = none) ∧
    (∀ it, processRow row = some it → is_valid_row row = true) := by
  refine ⟨?_, ?_, ?_⟩
  · rw [is_valid_row_iff]
    constructor
    · rintro ⟨q, a, hq, ha, h0q, h0a, hs, hd, hi⟩
      exact ⟨⟨q, hq, h0q⟩, ⟨a, ha, h0a⟩, hi, hs, hd⟩
    · rintro ⟨⟨q, hq, h0q⟩, ⟨a, ha, h0a⟩, hi, hs, hd⟩
      exact ⟨q, a, hq, ha, h0q, h0a, hs, hd, hi⟩
  · intro h
    simp [processRow, h]
  · intro it h
    by_cases hv : is_valid_row row
    · exact hv
    · simp [processRow, hv] at h

/-- Witness for `validity_gate_spec`: scenario E (`sku = "#REF!"`) is
dropped regardless of its valid numeric fields. -/
theorem validity_gate_spec_witness : processRow rowE = none :=
  (validity_gate_spec rowE).2.1
    (by norm_num [is_valid_row, rowE, show startsWithHash "#REF!" = true from by decide])

/-- Concrete row of scenario B: qoh 10, monthly average 20. -/
def rowB : RawRow :=
  { item_id := "B1", sku := "SKU-B", category := "Tiles",
    display_name := "Item B", qoh := some 10, monthly_average := some 20 }

/-- The item scenario B produces: half a month of stock, URGENT, order 50. -/
def itemB : InventoryItem :=
  { item_id := "B1", sku := "SKU-B", category := "Tiles",
    display_name := "Item B", qoh := 10, monthly_average := 20,
    months_of_stock := .fin (1/2), urgency := .URGENT,
    suggested_order_qty := 50 }

lemma process_inventory_rowB : process_inventory [rowB] = [itemB] := by
  norm_num [process_inventory, List.filterMap_cons, List.filterMap_nil,
    processRow, is_valid_row, rowB, itemB,
    calculate_urgency, calculate_suggested_order, pyInt, TARGET_MONTHS,
    show startsWithHash "SKU-B" = false from by decide,
    show startsWithHash "Item B" = false from by decide,
    show startsWithHash "B1" = false from by decide]

/-- C9: every item the pipeline produces has a finite, non-negative
months-of-stock value — the `inf` sentinel never reaches the output. -/
theorem months_of_stock_finite (rows : List RawRow) (item : InventoryItem)
    (h : item ∈ process_inventory rows) :
    ∃ q : ℚ, item.months_of_stock = StockMonths.fin q ∧ 0 ≤ q := by
  rw [process_inventory, List.mem_filterMap] at h
  obtain ⟨row, _, hrow⟩ := h
  obtain ⟨q, a, u, m, hq, ha, hv, hu, rfl⟩ := processRow_some row item hrow
  obtain ⟨_, x, hx, hx0⟩ := calculate_urgency_some q a u m hu
  exact ⟨x, hx, hx0⟩

/-- Witness for `months_of_stock_finite` at the scenario-B pipeline run. -/
theorem months_of_stock_finite_witness :
    ∃ q : ℚ, itemB.months_of_stock = StockMonths.fin q ∧ 0 ≤ q :=
  months_of_stock_finite [rowB] itemB
    (by rw [process_inventory_rowB]; exact List.mem_singleton.mpr rfl)

/-- A valid row with fractional qoh strictly between 0 and 1. -/
def rowFrac : RawRow :=
  { item_id := "F1", sku := "SKU-F", category := "Tiles",
    display_name := "Item F", qoh := some (1/2), monthly_average := some 1 }

/-- The item `rowFrac` produces: stored qoh truncated to 0, yet URGENT with
half a month of stock computed from the untruncated qoh. -/
def itemFrac : InventoryItem :=
  { item_id := "F1", sku := "SKU-F", category := "Tiles",
    display_name := "Item F", qoh := 0, monthly_average := 1,
    months_of_stock := .fin (1/2), urgency := .URGENT,
    suggested_order_qty := 2 }

/-- C10: a valid row with `monthly_average > 0` and fractional qoh strictly
between 0 and 1 produces an item whose stored qoh is 0 yet whose urgency is
not CRITICAL and whose months of stock is positive: the classification uses
the untruncated qoh, so months of stock need not equal stored qoh divided
by monthly average. -/
theorem fractional_qoh_truncation :
    is_valid_row rowFrac = true ∧
    rowFrac.qoh = some (1/2) ∧ (0:ℚ) < 1/2 ∧ (1:ℚ)/2 < 1 ∧
    rowFrac.monthly_average = some 1 ∧ (0:ℚ) < 1 ∧
    processRow rowFrac = some itemFrac ∧
    itemFrac.qoh = 0 ∧
    itemFrac.urgency ≠ Urgency.CRITICAL ∧
    itemFrac.months_of_stock = StockMonths.fin (1/2) ∧
    StockMonths.fin ((itemFrac.qoh : ℚ) / itemFrac.monthly_average) ≠
      itemFrac.months_of_stock := by
  refine ⟨?_, rfl, by norm_num, by norm_num, rfl, by norm_num, ?_, rfl, ?_, rfl, ?_⟩
  · norm_num [is_valid_row, rowFrac,
      show startsWithHash "SKU-F" = false from by decide,
      show startsWithHash "Item F" = false from by decide,
      show startsWithHash "F1" = false from by decide]
  · norm_num [processRow, is_valid_row, rowFrac, itemFrac,
      calculate_urgency, calculate_suggested_order, pyInt, TARGET_MONTHS,
      show startsWithHash "SKU-F" = false from by decide,
      show startsWithHash "Item F" = false from by decide,
      show startsWithHash "F1" = false from by decide]
  · intro h
    exact Urgency.noConfusion h
  · intro h
    have : ((0:ℤ) : ℚ) / (1:ℚ) = 1/2 := by
      simpa [itemFrac] using StockMonths.fin.inj h
    norm_num at this

lemma updateCount_fst (counts : List (Urgency × Nat)) (u : Urgency) :
    (updateCount counts u).map Prod.fst = counts.map Prod.fst := by
  induction counts with
  | nil => rfl
  | cons p rest ih =>
    simp only [updateCount, List.map_cons] at *
    rw [ih]
    by_cases h : p.1 = u <;> simp [h]

lemma sum_updateCount (counts : List (Urgency × Nat)) (u : Urgency)
    (h : counts.map Prod.fst = allUrgencies) :
    ((updateCount counts u).map Prod.snd).sum = ((counts.map Prod.snd).sum) + 1 := by
  rcases counts with _ | ⟨⟨k1, n1⟩, _ | ⟨⟨k2, n2⟩, _ | ⟨⟨k3, n3⟩, _ | ⟨⟨k4, n4⟩,
    _ | ⟨p, rest⟩⟩⟩⟩⟩ <;> simp [allUrgencies] at h
  obtain ⟨rfl, rfl, rfl, rfl⟩ := h
  cases u <;> simp [updateCount] <;> omega

lemma foldl_updateCount (items : List InventoryItem) :
    ∀ counts : List (Urgency × Nat), counts.map Prod.fst = allUrgencies →
      ((items.foldl (fun c it => updateCount c it.urgency) counts).map Prod.fst
          = allUrgencies ∧
        (((items.foldl (fun c it => updateCount c it.urgency) counts).map
            Prod.snd).sum = (counts.map Prod.snd).sum + items.length)) := by
  induction items with
  | nil => intro counts h; exact ⟨h, rfl⟩
  | cons it rest ih =>
    intro counts h
    simp only [List.foldl_cons, List.length_cons]
    have h' : (updateCount counts it.urgency).map Prod.fst = allUrgencies := by
      rw [updateCount_fst]; exact h
    obtain ⟨ih1, ih2⟩ := ih _ h'
    refine ⟨ih1, ?_⟩
    rw [ih2, sum_updateCount counts it.urgency h]
    omega

lemma foldl_updateCount_eq (items : List InventoryItem) :
    ∀ n1 n2 n3 n4 : Nat,
      items.foldl (fun c it => updateCount c it.urgency)
          [(Urgency.CRITICAL, n1), (Urgency.URGENT, n2),
           (Urgency.WARNING, n3), (Urgency.OK, n4)] =
        [(Urgency.CRITICAL,
            n1 + items.countP (fun x => decide (x.urgency = Urgency.CRITICAL))),
         (Urgency.URGENT,
            n2 + items.countP (fun x => decide (x.urgency = Urgency.URGENT))),
         (Urgency.WARNING,
            n3 + items.countP (fun x => decide (x.urgency = Urgency.WARNING))),
         (Urgency.OK,
            n4 + items.countP (fun x => decide (x.urgency = Urgency.OK)))] := by
  induction items with
  | nil => intro n1 n2 n3 n4; simp
  | cons it rest ih =>
    intro n1 n2 n3 n4
    simp only [List.foldl_cons]
    cases hu : it.urgency
    case CRITICAL =>
      rw [show updateCount [(Urgency.CRITICAL, n1), (Urgency.URGENT, n2),
            (Urgency.WARNING, n3), (Urgency.OK, n4)] Urgency.CRITICAL =
          [(Urgency.CRITICAL, n1 + 1), (Urgency.URGENT, n2),
           (Urgency.WARNING, n3), (Urgency.OK, n4)] from by simp [updateCount]]
      rw [ih]
      simp [List.countP_cons, hu]
      omega
    case URGENT =>
      rw [show updateCount [(Urgency.CRITICAL, n1), (Urgency.URGENT, n2),
            (Urgency.WARNING, n3), (Urgency.OK, n4)] Urgency.URGENT =
          [(Urgency.CRITICAL, n1), (Urgency.URGENT, n2 + 1),
           (Urgency.WARNING, n3), (Urgency.OK, n4)] from by simp [updateCount]]
      rw [ih]
      simp [List.countP_cons, hu]
      omega
    case WARNING =>
      rw [show updateCount [(Urgency.CRITICAL, n1), (Urgency.URGENT, n2),
            (Urgency.WARNING, n3), (Urgency.OK, n4)] Urgency.WARNING =
          [(Urgency.CRITICAL, n1), (Urgency.URGENT, n2),
           (Urgency.WARNING, n3 + 1), (Urgency.OK, n4)] from by simp [updateCount]]
      rw [ih]
      simp [List.countP_cons, hu]
      omega
    case OK =>
      rw [show updateCount [(Urgency.CRITICAL, n1), (Urgency.URGENT, n2),
            (Urgency.WARNING, n3), (Urgency.OK, n4)] Urgency.OK =
          [(Urgency.CRITICAL, n1), (Urgency.URGENT, n2),
           (Urgency.WARNING, n3), (Urgency.OK, n4 + 1)] from by simp [updateCount]]
      rw [ih]
      simp [List.countP_cons, hu]
      omega

/-- C5: the count-by-urgency map is exactly the four urgency tiers in enum
order, each mapped to the number of items with that urgency — in
particular a tier with no items is present and mapped to 0 — and the four
counts sum to the number of items. -/
theorem count_by_urgency_spec (items : List InventoryItem) :
    count_by_urgency items =
      [(Urgency.CRITICAL,
          items.countP (fun x => decide (x.urgency = Urgency.CRITICAL))),
       (Urgency.URGENT,
          items.countP (fun x => decide (x.urgency = Urgency.URGENT))),
       (Urgency.WARNING,
          items.countP (fun x => decide (x.urgency = Urgency.WARNING))),
       (Urgency.OK,
          items.countP (fun x => decide (x.urgency = Urgency.OK)))] ∧
    (count_by_urgency items).map Prod.fst = allUrgencies ∧
    (∀ u : Urgency, items.countP (fun x => decide (x.urgency = u)) = 0 →
      (u, 0) ∈ count_by_urgency items) ∧
    ((count_by_urgency items).map Prod.snd).sum = items.length := by
  have heq : count_by_urgency items =
      [(Urgency.CRITICAL,
          items.countP (fun x => decide (x.urgency = Urgency.CRITICAL))),
       (Urgency.URGENT,
          items.countP (fun x => decide (x.urgency = Urgency.URGENT))),
       (Urgency.WARNING,
          items.countP (fun x => decide (x.urgency = Urgency.WARNING))),
       (Urgency.OK,
          items.countP (fun x => decide (x.urgency = Urgency.OK)))] := by
    rw [count_by_urgency]
    have hinit : allUrgencies.map (fun u => (u, (0 : Nat))) =
        [(Urgency.CRITICAL, 0), (Urgency.URGENT, 0),
         (Urgency.WARNING, 0), (Urgency.OK, 0)] := by
      simp [allUrgencies]
    rw [hinit]
    simpa using foldl_updateCount_eq items 0 0 0 0
  have h0 : ((allUrgencies.map (fun u => (u, (0 : Nat)))).map Prod.fst)
      = allUrgencies := by
    simp [allUrgencies]
  obtain ⟨h1, h2⟩ := foldl_updateCount items _ h0
  refine ⟨heq, h1, ?_, ?_⟩
  · intro u hu
    rw [heq]
    cases u <;> simp [hu]
  · rw [count_by_urgency, h2]
    simp [allUrgencies]

/-- Witness for `count_by_urgency_spec`: with a single URGENT item, the
CRITICAL tier has no items and is mapped to 0. -/
theorem count_by_urgency_spec_witness :
    (Urgency.CRITICAL, 0) ∈ count_by_urgency [itemB] :=
  (count_by_urgency_spec [itemB]).2.2.1 Urgency.CRITICAL (by decide)

lemma sortKeyLE_total (a b : InventoryItem) : sortKeyLE a b || sortKeyLE b a := by
  simp only [sortKeyLE, Bool.or_eq_true, Bool.and_eq_true, decide_eq_true_eq]
  rcases Nat.lt_trichotomy a.urgency.value b.urgency.value with h | h | h
  · tauto
  · rcases le_total a.monthly_average b.monthly_average with h2 | h2
    · exact Or.inr (Or.inr ⟨h.symm, h2⟩)
    · exact Or.inl (Or.inr ⟨h, h2⟩)
  · tauto

lemma sortKeyLE_trans (a b c : InventoryItem)
    (h1 : sortKeyLE a b) (h2 : sortKeyLE b c) : sortKeyLE a c := by
  simp only [sortKeyLE, Bool.or_eq_true, Bool.and_eq_true, decide_eq_true_eq] at *
  rcases h1 with h1 | ⟨h1e, h1m⟩ <;> rcases h2 with h2 | ⟨h2e, h2m⟩
  · exact Or.inl (h1.trans h2)
  · exact Or.inl (h2e ▸ h1)
  · exact Or.inl (h1e ▸ h2)
  · exact Or.inr ⟨h1e.trans h2e, le_trans h2m h1m⟩

/-- C4: `sort_items` permutes its input so that a strictly more severe
urgency always comes first, a strictly higher monthly average comes first
within the same urgency, and items tied on both keys keep their input
relative order (stability). -/
theorem sort_items_spec (items : List InventoryItem) :
    ((sort_items items).Perm items) ∧
    (∀ (i j : Nat) (hi : i < (sort_items items).length)
        (hj : j < (sort_items items).length),
      ((sort_items items).get ⟨i, hi⟩).urgency.value <
          ((sort_items items).get ⟨j, hj⟩).urgency.value →
        ¬ j < i) ∧
    (∀ (i j : Nat) (hi : i < (sort_items items).length)
        (hj : j < (sort_items items).length),
      ((sort_items items).get ⟨i, hi⟩).urgency.value =
          ((sort_items items).get ⟨j, hj⟩).urgency.value →
        ((sort_items items).get ⟨j, hj⟩).monthly_average <
          ((sort_items items).get ⟨i, hi⟩).monthly_average →
        ¬ j < i) ∧
    (∀ a b : InventoryItem, a.urgency.value = b.urgency.value →
      a.monthly_average = b.monthly_average →
      [a, b].Sublist items → [a, b].Sublist (sort_items items)) := by
  have hpair : (sort_items items).Pairwise (fun a b => sortKeyLE a b) :=
    List.sorted_mergeSort sortKeyLE_trans sortKeyLE_total items
  have hidx := List.pairwise_iff_getElem.mp hpair
  refine ⟨List.mergeSort_perm items sortKeyLE, ?_, ?_, ?_⟩
  · intro i j hi hj hlt hji
    have h := hidx j i hj hi hji
    simp only [sortKeyLE, Bool.or_eq_true, Bool.and_eq_true,
      decide_eq_true_eq] at h
    simp only [List.get_eq_getElem] at hlt
    rcases h with h | ⟨he, _⟩
    · omega
    · omega
  · intro i j hi hj heq hlt hji
    have h := hidx j i hj hi hji
    simp only [sortKeyLE, Bool.or_eq_true, Bool.and_eq_true,
      decide_eq_true_eq] at h
    simp only [List.get_eq_getElem] at heq hlt
    rcases h with h | ⟨he, hm⟩
    · omega
    · exact absurd hlt (not_lt.mpr hm)
  · intro a b he hm hsub
    apply List.pair_sublist_mergeSort sortKeyLE_trans sortKeyLE_total ?_ hsub
    simp only [sortKeyLE, Bool.or_eq_true, Bool.and_eq_true, decide_eq_true_eq]
    exact Or.inr ⟨he, le_of_eq hm.symm⟩

/-- Item for the stability witness: OK tier, monthly average 2, sku S1. -/
def itemT1 : InventoryItem :=
  { item_id := "T1", sku := "S1", category := "Tiles",
    display_name := "P1", qoh := 5, monthly_average := 2,
    months_of_stock := .fin (5/2), urgency := .OK, suggested_order_qty := 1 }

/-- Item tied with `itemT1` on both sort keys, sku S2. -/
def itemT2 : InventoryItem :=
  { item_id := "T2", sku := "S2", category := "Tiles",
    display_name := "P2", qoh := 5, monthly_average := 2,
    months_of_stock := .fin (5/2), urgency := .OK, suggested_order_qty := 1 }

/-- Witness for `sort_items_spec`: two items tied on both keys keep their
relative order. -/
theorem sort_items_spec_witness :
    [itemT1, itemT2].Sublist (sort_items [itemT1, itemT2]) :=
  (sort_items_spec [itemT1, itemT2]).2.2.2 itemT1 itemT2 rfl rfl
    (List.Sublist.refl _)

lemma parse_excel_loop_stats (wb : List (String × Sheet)) (name : String) (n : Nat) :
    (name, n) ∈ (parse_excel_loop wb).2 ↔
      ∃ sh : Sheet, (name, sh) ∈ wb ∧ name ∉ IGNORE_SHEETS ∧
        name ∈ INVENTORY_SHEETS ∧ (parse_sheet name sh).length = n ∧ 0 < n := by
  induction wb with
  | nil => simp [parse_excel_loop]
  | cons e rest ih =>
    obtain ⟨nm, sh⟩ := e
    by_cases h1 : nm ∈ IGNORE_SHEETS
    · rw [show parse_excel_loop ((nm, sh) :: rest) = parse_excel_loop rest from by
        simp [parse_excel_loop, h1]]
      rw [ih]
      constructor
      · rintro ⟨sh', hmem, hig, hinv, hlen, hpos⟩
        exact ⟨sh', List.mem_cons_of_mem _ hmem, hig, hinv, hlen, hpos⟩
      · rintro ⟨sh', hmem, hig, hinv, hlen, hpos⟩
        rcases List.mem_cons.mp hmem with hhd | htl
        · obtain ⟨rfl, rfl⟩ := Prod.mk.injEq .. ▸ hhd
          exact absurd h1 hig
        · exact ⟨sh', htl, hig, hinv, hlen, hpos⟩
    · by_cases h2 : nm ∈ INVENTORY_SHEETS
      · by_cases h3 : (parse_sheet nm sh).isEmpty
        · rw [show parse_excel_loop ((nm, sh) :: rest) = parse_excel_loop rest from by
            simp [parse_excel_loop, h1, h2, h3]]
          rw [ih]
          have hnil : parse_sheet nm sh = [] := List.isEmpty_iff.mp h3
          constructor
          · rintro ⟨sh', hmem, hig, hinv, hlen, hpos⟩
            exact ⟨sh', List.mem_cons_of_mem _ hmem, hig, hinv, hlen, hpos⟩
          · rintro ⟨sh', hmem, hig, hinv, hlen, hpos⟩
            rcases List.mem_cons.mp hmem with hhd | htl
            · obtain ⟨rfl, rfl⟩ := Prod.mk.injEq .. ▸ hhd
              rw [hnil] at hlen
              simp at hlen
              omega
            · exact ⟨sh', htl, hig, hinv, hlen, hpos⟩
        · rw [show parse_excel_loop ((nm, sh) :: rest) =
              ((parse_sheet nm sh) :: (parse_excel_loop rest).1,
               (nm, (parse_sheet nm sh).length) :: (parse_excel_loop rest).2) from by
            simp [parse_excel_loop, h1, h2, h3]]
          simp only [List.mem_cons]
          constructor
          · rintro (hhd | htl)
            · obtain ⟨rfl, rfl⟩ := Prod.mk.injEq .. ▸ hhd
              refine ⟨sh, Or.inl rfl, h1, h2, rfl, ?_⟩
              have := List.isEmpty_eq_false_iff_exists_mem.mp (by simpa using h3)
              obtain ⟨x, hx⟩ := this
              exact List.length_pos.mpr (List.ne_nil_of_mem hx)
            · obtain ⟨sh', hmem, hig, hinv, hlen, hpos⟩ := ih.mp htl
              exact ⟨sh', Or.inr hmem, hig, hinv, hlen, hpos⟩
          · rintro ⟨sh', hmem, hig, hinv, hlen, hpos⟩
            rcases hmem with hhd | htl
            · obtain ⟨rfl, rfl⟩ := Prod.mk.injEq .. ▸ hhd
              exact Or.inl (by rw [hlen])
            · exact Or.inr (ih.mpr ⟨sh', htl, hig, hinv, hlen, hpos⟩)
      · rw [show parse_excel_loop ((nm, sh) :: rest) = parse_excel_loop rest from by
          simp [parse_excel_loop, h1, h2]]
        rw [ih]
        constructor
        · rintro ⟨sh', hmem, hig, hinv, hlen, hpos⟩
          exact ⟨sh', List.mem_cons_of_mem _ hmem, hig, hinv, hlen, hpos⟩
        · rintro ⟨sh', hmem, hig, hinv, hlen, hpos⟩
          rcases List.mem_cons.mp hmem with hhd | htl
          · obtain ⟨rfl, rfl⟩ := Prod.mk.injEq .. ▸ hhd
            exact absurd hinv h2
          · exact ⟨sh', htl, hig, hinv, hlen, hpos⟩

lemma parse_excel_loop_empty (wb : List (String × Sheet))
    (h : ∀ (name : String) (sh : Sheet), (name, sh) ∈ wb →
      name ∈ INVENTORY_SHEETS → name ∉ IGNORE_SHEETS → parse_sheet name sh = []) :
    parse_excel_loop wb = ([], []) := by
  induction wb with
  | nil => rfl
  | cons e rest ih =>
    obtain ⟨nm, sh⟩ := e
    have hrest := ih (fun name sh' hmem => h name sh' (List.mem_cons_of_mem _ hmem))
    by_cases h1 : nm ∈ IGNORE_SHEETS
    · simp [parse_excel_loop, h1, hrest]
    · by_cases h2 : nm ∈ INVENTORY_SHEETS
      · have hnil : parse_sheet nm sh = [] :=
          h nm sh (List.mem_cons_self ..) h2 h1
        simp [parse_excel_loop, h1, h2, hnil, hrest]
      · simp [parse_excel_loop, h1, h2, hrest]

/-- C7: the stats map of `parse_excel` has an entry `(sheet_name, n)`
exactly for the known, non-ignored sheets whose parse yielded `n ≥ 1`
rows (sheets yielding none are absent), and when no known sheet yields any
data the extractor returns an empty row sequence and an empty stats map. -/
theorem parse_excel_stats_spec (wb : List (String × Sheet)) :
    (∀ (name : String) (n : Nat),
      (name, n) ∈ (parse_excel wb).2 ↔
        ∃ sh : Sheet, (name, sh) ∈ wb ∧ name ∉ IGNORE_SHEETS ∧
          name ∈ INVENTORY_SHEETS ∧ (parse_sheet name sh).length = n ∧ 0 < n) ∧
    ((∀ (name : String) (sh : Sheet), (name, sh) ∈ wb →
        name ∈ INVENTORY_SHEETS → name ∉ IGNORE_SHEETS →
        parse_sheet name sh = []) →
      parse_excel wb = ([], [])) := by
  constructor
  · intro name n
    have h2 : (parse_excel wb).2 = (parse_excel_loop wb).2 := by
      unfold parse_excel
      by_cases hh : (parse_excel_loop wb).1.isEmpty <;> simp [hh]
    rw [h2]
    exact parse_excel_loop_stats wb name n
  · intro h
    unfold parse_excel
    rw [parse_excel_loop_empty wb h]
    rfl

/-- A concrete "Tiles" sheet: title row, header row, one data row. -/
def sheetT : Sheet :=
  { ncols := 7,
    rows := [[Cell.str "Title"],
             [Cell.blank, Cell.str "Item", Cell.str "SKU", Cell.str "Type",
              Cell.str "Description", Cell.str "QOH", Cell.str "Avg"],
             [Cell.blank, Cell.str "T1", Cell.str "SKU-T", Cell.str "Type",
              Cell.str "Item T", Cell.num 10, Cell.num 20]] }

/-- Witness for `parse_excel_stats_spec`: a workbook with one "Tiles" sheet
holding one data row records `("Tiles", 1)` in the stats. -/
theorem parse_excel_stats_spec_witness :
    ("Tiles", 1) ∈ (parse_excel [("Tiles", sheetT)]).2 :=
  ((parse_excel_stats_spec [("Tiles", sheetT)]).1 "Tiles" 1).mpr
    ⟨sheetT, List.mem_singleton.mpr rfl, by decide, by decide, by decide,
      Nat.one_pos⟩

/-- C8: the CSV export's joined header is exactly
`Urgency,Product,SKU,Category,QOH,Monthly Average,Months of Stock,Suggested Order Qty`,
there is one 8-field record per item in input order (no index column), the
first field is the urgency text label (labels differ from the display
glyphs), the sixth field carries the unrounded monthly average, and the
seventh carries the months of stock rounded to 2 decimals, or is blank when
months of stock is at least 100 (or infinite). -/
theorem to_csv_spec (items : List InventoryItem) :
    String.intercalate "," (to_csv items).1 =
      "Urgency,Product,SKU,Category,QOH,Monthly Average,Months of Stock,Suggested Order Qty" ∧
    (to_csv items).2.length = items.length ∧
    (∀ (i : Nat) (hi : i < items.length) (hi2 : i < (to_csv items).2.length),
      ((to_csv items).2.get ⟨i, hi2⟩).length = 8 ∧
      ((to_csv items).2.get ⟨i, hi2⟩).head? =
        some (CsvCell.strC ((items.get ⟨i, hi⟩).urgency.label)) ∧
      ((to_csv items).2.get ⟨i, hi2⟩).get? 5 =
        some (CsvCell.ratC ((items.get ⟨i, hi⟩).monthly_average)) ∧
      (∀ q : ℚ, (items.get ⟨i, hi⟩).months_of_stock = StockMonths.fin q →
        q < 100 →
        ((to_csv items).2.get ⟨i, hi2⟩).get? 6 =
          some (CsvCell.ratC (round2 q))) ∧
      (∀ q : ℚ, (items.get ⟨i, hi⟩).months_of_stock = StockMonths.fin q →
        100 ≤ q →
        ((to_csv items).2.get ⟨i, hi2⟩).get? 6 = some CsvCell.emptyC) ∧
      ((items.get ⟨i, hi⟩).months_of_stock = StockMonths.inf →
        ((to_csv items).2.get ⟨i, hi2⟩).get? 6 = some CsvCell.emptyC)) ∧
    (∀ u : Urgency, u.label ≠ u.emoji) := by
  have hA : String.intercalate "," (to_csv items).1 =
      "Urgency,Product,SKU,Category,QOH,Monthly Average,Months of Stock,Suggested Order Qty" := by
    have hh : (to_csv items).1 = csvHeader := rfl
    rw [hh]
    decide
  have hD : ∀ u : Urgency, u.label ≠ u.emoji := by
    intro u; cases u <;> decide
  refine ⟨hA, by simp [to_csv], ?_, hD⟩
  intro i hi hi2
  have hrow : (to_csv items).2.get ⟨i, hi2⟩ = csvRecord (items.get ⟨i, hi⟩) := by
    simp [to_csv, List.get_eq_getElem]
  rw [hrow]
  refine ⟨rfl, rfl, rfl, ?_, ?_, ?_⟩
  · intro q hqe hlt
    simp only [List.get_eq_getElem] at hqe
    simp [csvRecord, hqe, hlt]
  · intro q hqe hge
    simp only [List.get_eq_getElem] at hqe
    simp [csvRecord, hqe, not_lt.mpr hge]
  · intro hinf
    simp only [List.get_eq_getElem] at hinf
    simp [csvRecord, hinf]

/-- Witness for `to_csv_spec`: the scenario-B item's record has 8 fields
and starts with the "Urgent" label. -/
theorem to_csv_spec_witness :
    ((to_csv [itemB]).2.get ⟨0, by simp [to_csv]⟩).length = 8 ∧
    ((to_csv [itemB]).2.get ⟨0, by simp [to_csv]⟩).head? =
      some (CsvCell.strC (([itemB].get ⟨0, by simp⟩).urgency.label)) := by
  have h := (to_csv_spec [itemB]).2.2.1 0 (by simp) (by simp [to_csv])
  exact ⟨h.1, h.2.1⟩
